import Mathlib

set_option linter.unusedVariables false

/- Shallow embedding of src/dnd-roller/main.js (the dice-roller's physics /
   placement / lifecycle core).

   Modelling conventions:
   * JS numbers are modelled as exact rationals (ℚ).
   * THREE.js / cannon-es objects (meshes, bodies) are modelled as records;
     object identity (needed for scene / world membership and for the
     `findIndex(d => d.body === body)` test) is modelled by a numeric id.
   * The cannon-es solver (`world.step`) is external library code, not part
     of this repository; its effect on bodies is abstracted as an explicit
     function parameter of the operations that invoke it.
   * `Math.sqrt(dx*dx + dz*dz) < r` is modelled as `dx*dx + dz*dz < r*r`,
     which is equivalent for the nonnegative radii produced by bounding-box
     extents (r = 0.9 * max(size.x, size.z)).
   * Fields the claims never observe (angular velocity, damping and sleep
     parameters, materials, lights, camera) are omitted. -/

structure Vec3 where
  x : ℚ
  y : ℚ
  z : ℚ
deriving DecidableEq, Repr

structure Quat where
  x : ℚ
  y : ℚ
  z : ℚ
  w : ℚ
deriving DecidableEq, Repr

/-- A cannon-es dynamic body, as configured by `spawnDie` (main.js 261-294). -/
structure Body where
  id : ℕ
  pos : Vec3
  quat : Quat
  vel : Vec3
  halfExtents : Vec3
deriving DecidableEq, Repr

/-- A THREE.js object (the cloned dice visual). -/
structure Mesh where
  id : ℕ
  pos : Vec3
  quat : Quat
deriving DecidableEq, Repr

/-- One entry of the `diceObjects` array: `{ mesh, body, born, halfHeight }`
    (main.js 315). -/
structure DieObject where
  mesh : Mesh
  body : Body
  born : ℕ
  halfHeight : ℚ
deriving DecidableEq, Repr

/-- The loaded dice template (main.js 216-240).  `userData.size` is the
    bounding-box size of `dice.glb`; `userData.halfHeight` is `size.y / 2`
    (main.js 231-232), so only the size is stored here. -/
structure DiceTemplate where
  size : Vec3
deriving DecidableEq, Repr

/-- Source: `diceTemplate.userData.halfHeight = tmpSize.y / 2` (main.js 232). -/
def templateHalfHeight (t : DiceTemplate) : ℚ := t.size.y / 2

/-- The module-level mutable state of main.js: the `diceObjects` array, the
    physics world's body set (`world.bodies`, by id), the scene's children
    (by id), `stageTopY`, `diceTemplate`, and the pending `setTimeout`
    removals (body id, due wall-clock time in ms). -/
structure SimState where
  diceObjects : List DieObject
  worldBodies : List ℕ
  sceneMeshes : List ℕ
  stageTopY : ℚ
  diceTemplate : Option DiceTemplate
  timers : List (ℕ × ℕ)
deriving DecidableEq, Repr

/-- Source: `new CANNON.Vec3(size.x / 2, size.y / 2, size.z / 2)` (main.js 259). -/
def halfExtentsOf (size : Vec3) : Vec3 := ⟨size.x / 2, size.y / 2, size.z / 2⟩

/-- Source: `const horizRadius = Math.max(size.x, size.z) * 0.9` (main.js 269). -/
def horizRadiusOf (size : Vec3) : ℚ := max size.x size.z * (9 / 10)

/-- Source: `d.halfHeight || (d.mesh.geometry ? bboxHalf : 0.5)` (main.js 276).
    Every `diceObjects` entry is pushed by `spawnDie`, whose mesh is a clone
    of the template scene — a THREE.Group with no `.geometry` — so a falsy
    (zero) `halfHeight` falls back to the constant 0.5. -/
def otherHalfOf (d : DieObject) : ℚ := if d.halfHeight = 0 then 1 / 2 else d.halfHeight

/-- Source: `const otherTop = d.mesh.position.y + otherHalf` (main.js 277). -/
def dieTop (d : DieObject) : ℚ := d.mesh.pos.y + otherHalfOf d

/-- One iteration of the scan at main.js 271-282: if the die is within the
    horizontal exclusion radius of the target and its top is above the
    running maximum, take its top. -/
def scanStep (target : Vec3) (r : ℚ) (highestTop : ℚ) (d : DieObject) : ℚ :=
  let dx := d.mesh.pos.x - target.x
  let dz := d.mesh.pos.z - target.z
  if dx * dx + dz * dz < r * r ∧ dieTop d > highestTop then dieTop d else highestTop

/-- Source: `let highestTop = stageTopY; for (const d of diceObjects) ...`
    (main.js 268-282). -/
def highestNearbyTop (stageTop : ℚ) (target : Vec3) (r : ℚ)
    (dice : List DieObject) : ℚ :=
  dice.foldl (scanStep target r) stageTop

/-- Source: `const minSafeY = highestTop + halfHeight + 0.02` (main.js 284). -/
def minSafeSpawnY (highestTop halfHeight : ℚ) : ℚ := highestTop + halfHeight + 1 / 50

/-- Source: `if (position.y < minSafeY) position.y = minSafeY` (main.js 285): the
    caller's position vector is mutated in place. -/
def clampSpawnY (minSafe : ℚ) (p : Vec3) : Vec3 :=
  if p.y < minSafe then { p with y := minSafe } else p

/-- The corrective threshold of the second check (main.js 306):
    `stageTopY + Math.max(halfExtents.x, halfExtents.y, halfExtents.z) + 0.05`.
    Note it is computed from the stage top alone and the largest half
    extent — not from the nearby-die floor and not from the half-height. -/
def postStepMinSafeY (stageTop : ℚ) (he : Vec3) : ℚ :=
  stageTop + max (max he.x he.y) he.z + 1 / 20

/-- The effective placement floor used by `spawnDie` for the target
    `position` of a spawn against state `s` with measured die size
    `msize` (main.js 268-282). -/
def spawnFloorOf (s : SimState) (msize target : Vec3) : ℚ :=
  highestNearbyTop s.stageTopY target (horizRadiusOf msize) s.diceObjects

/-- Result of a `spawnDie` call.  `result` holds the ids of the returned
    `{ mesh, body }` (null → `none`); `argPos` is the caller's position
    vector after the call (main.js 285 mutates it in place);
    `preStepBodyPos` is `body.position` as set at main.js 286, before the
    immediate sub-steps. -/
structure SpawnOut where
  result : Option (ℕ × ℕ)
  argPos : Vec3
  preStepBodyPos : Vec3
  state : SimState
deriving DecidableEq, Repr

/-- Source: `spawnDie(position, quaternion, velocity)` (main.js 243-328).

    * `phys` abstracts the six immediate `world.step(1/120, 1/120, 1)`
      sub-steps (main.js 297-302): their effect on the freshly created body.
      (The sub-steps also advance previously live bodies; no verified claim
      depends on those, and the only in-repo caller clears all dice first.)
    * `measuredSize` is the result of `new THREE.Box3().setFromObject(mesh)`
      (main.js 256-258) — an external THREE.js measurement of the placed
      clone; it equals the template's bounding size when `quaternion` is
      the identity, which is how the repository always calls `spawnDie`.
    * `now` is the wall clock (ms); `mid`/`bid` are the fresh object ids of
      the clone and the new body.
    * The randomized angular velocity, damping and sleep settings
      (main.js 289-294) configure solver behaviour already abstracted by
      `phys` and are not recorded. -/
def spawnDie (phys : Body → Body) (now mid bid : ℕ) (measuredSize : Vec3)
    (position : Vec3) (quaternion : Quat) (velocity : Vec3) (s : SimState) : SpawnOut :=
  match s.diceTemplate with
  | none =>
      -- `console.warn('dice template not loaded yet'); return null` (244-247)
      { result := none, argPos := position, preStepBodyPos := position, state := s }
  | some _ =>
      -- clone the template and copy position/quaternion onto it (250-253)
      let mesh0 : Mesh := { id := mid, pos := position, quat := quaternion }
      let halfExtents := halfExtentsOf measuredSize
      let halfHeight := halfExtents.y
      -- placement floor and first clamp (268-286)
      let highestTop := spawnFloorOf s measuredSize position
      let minSafeY := minSafeSpawnY highestTop halfHeight
      let position1 := clampSpawnY minSafeY position
      let body0 : Body :=
        { id := bid, pos := position1, quat := quaternion, vel := velocity,
          halfExtents := halfExtents }
      -- six immediate solver sub-steps (297-302); `world.step` mutates the
      -- body in place, so its identity is preserved across the call
      let body1 : Body := { phys body0 with id := bid }
      -- second corrective check (304-313): lift body and mesh if below
      -- the stage-based threshold
      let minSafeY2 := postStepMinSafeY s.stageTopY halfExtents
      let body2 :=
        if body1.pos.y < minSafeY2 then
          { body1 with pos := { body1.pos with y := minSafeY2 } }
        else body1
      let mesh1 :=
        if body1.pos.y < minSafeY2 then
          { mesh0 with pos := { mesh0.pos with y := minSafeY2 } }
        else mesh0
      let entry : DieObject :=
        { mesh := mesh1, body := body2, born := now, halfHeight := halfHeight }
      { result := some (mid, bid),
        argPos := position1,
        preStepBodyPos := position1,
        state :=
          { s with
            diceObjects := s.diceObjects ++ [entry],
            worldBodies := s.worldBodies ++ [bid],
            sceneMeshes := s.sceneMeshes ++ [mid],
            timers := (bid, now + 90000) :: s.timers } }

/-- The `while (diceObjects.length)` pop loop of `clearAllDice`
    (main.js 355-361), processed from the end of the array; returns the
    world body set and scene children after all removals. -/
def removeAllDice : List DieObject → List ℕ → List ℕ → List ℕ × List ℕ
  | [], wb, sc => (wb, sc)
  | d :: rest, wb, sc => removeAllDice rest (wb.erase d.body.id) (sc.erase d.mesh.id)

/-- Source: `clearAllDice()` (main.js 355-361): pops every entry, removing its body
    from the world and its mesh from the scene. -/
def clearAllDice (s : SimState) : SimState :=
  { s with
    diceObjects := [],
    worldBodies := (removeAllDice s.diceObjects.reverse s.worldBodies s.sceneMeshes).1,
    sceneMeshes := (removeAllDice s.diceObjects.reverse s.worldBodies s.sceneMeshes).2 }

/-- The `setTimeout` callback scheduled by `spawnDie` (main.js 317-325):
    look up the entry whose body is the spawned body; if still present,
    remove the body from the world, the entry's mesh from the scene, and
    splice the entry out; otherwise do nothing.
    `findIndex` + `splice(idx, 1)` is modelled as `find?` + erasing the
    first matching entry. -/
def timeoutRemove (bid : ℕ) (s : SimState) : SimState :=
  match s.diceObjects.find? (fun d => d.body.id == bid) with
  | none => s
  | some d =>
      { s with
        worldBodies := s.worldBodies.erase bid,
        sceneMeshes := s.sceneMeshes.erase d.mesh.id,
        diceObjects := s.diceObjects.eraseP (fun e => e.body.id == bid) }

/-- JS timer semantics: a `setTimeout` callback never runs before its due
    time has elapsed on the wall clock. -/
def timerFireOk (dueAt fireAt : ℕ) : Prop := dueAt ≤ fireAt

/-- Copy one die's body transform onto its visual (main.js 409-410). -/
def syncDie (d : DieObject) : DieObject :=
  { d with mesh := { d.mesh with pos := d.body.pos, quat := d.body.quat } }

/-- Source: `syncAll()` (main.js 407-412). -/
def syncAll (s : SimState) : SimState :=
  { s with diceObjects := s.diceObjects.map syncDie }

def bodiesOf (s : SimState) : List Body := s.diceObjects.map DieObject.body

/-- Write the solver's updated bodies back into the `diceObjects` entries
    (the bodies are mutated in place by `world.step`; here the update is
    explicit). -/
def setBodies : List DieObject → List Body → List DieObject
  | [], _ => []
  | ds, [] => ds
  | d :: ds, b :: bs => { d with body := b } :: setBodies ds bs

/-- One iteration of `animate()` (main.js 415-423): advance physics
    (`world.step(1/60, dt, 10)`, the external solver, abstracted as `phys`
    acting on the list of live bodies), then `syncAll()`.  Camera update and
    rendering touch no simulation state. -/
def animateFrame (phys : List Body → List Body) (s : SimState) : SimState :=
  syncAll { s with diceObjects := setBodies s.diceObjects (phys (bodiesOf s)) }

/-- Source: `n` iterations of the frame loop. -/
def animateFrames (phys : List Body → List Body) : ℕ → SimState → SimState
  | 0, s => s
  | n + 1, s => animateFrame phys (animateFrames phys n s)

/-- Source: `new THREE.Quaternion()` — the identity. -/
def identQuat : Quat := ⟨0, 0, 0, 1⟩

/-- Source: `const spawnMargin = Math.max(1.5, dieHalf * 2.0)` (main.js 382). -/
def spawnMarginOf (dieHalf : ℚ) : ℚ := max (3 / 2) (dieHalf * 2)

/-- Source: `const dieHalf = (diceTemplate && diceTemplate.userData &&
    diceTemplate.userData.halfHeight) ? diceTemplate.userData.halfHeight : 0.6`
    (main.js 380).  The handler only runs with the template loaded and
    `loadDiceTemplate` always creates `userData`, so the conditional reduces
    to the truthiness of the stored half-height itself: a falsy (zero)
    half-height falls back to the constant 0.6. -/
def rollDieHalf (t : DiceTemplate) : ℚ :=
  if templateHalfHeight t = 0 then 3 / 5 else templateHalfHeight t

/-- The roll-button click handler (main.js 368-389).

    * If the template is not loaded the click is ignored (`none`).
    * Otherwise all existing dice are cleared, the aim ray is intersected
      with the horizontal plane at `stageTopY` (the external camera math of
      `screenToWorldAtY` is abstracted: `aimX`/`aimZ` are the intersection
      point's horizontal coordinates), the drop height is
      `planeY + dieHalf + spawnMargin`, and `spawnDie` is called with the
      identity orientation and a small random horizontal jitter velocity
      (`r1`, `r2` are the two `Math.random()` draws).
    * `dieHalf` is the stored template half-height, or 0.6 when that is
      falsy (`rollDieHalf`, main.js 380).
    * `planeY = stageTopY || 0` equals `stageTopY` (a zero stage top is
      unchanged by `|| 0`).
    * The clone of the template carries the identity rotation, so the
      measured bounding size passed to `spawnDie` is the template's size. -/
def rollClick (phys : Body → Body) (now mid bid : ℕ) (aimX aimZ : ℚ) (r1 r2 : ℚ)
    (s : SimState) : Option SpawnOut :=
  match s.diceTemplate with
  | none => none
  | some t =>
      let s1 := clearAllDice s
      let planeY := s1.stageTopY
      let dieHalf := rollDieHalf t
      let spawnMargin := spawnMarginOf dieHalf
      let dropY := planeY + dieHalf + spawnMargin
      let pos : Vec3 := { x := aimX, y := dropY, z := aimZ }
      let jitter : ℚ := 2 / 5
      let vel : Vec3 := { x := (r1 - 1 / 2) * jitter, y := 0, z := (r2 - 1 / 2) * jitter }
      some (spawnDie phys now mid bid t.size pos identQuat vel s1)

/- Stage loading (main.js 109-213). -/

/-- A stage mesh as seen by the collider loop (main.js 176-210): its id and
    its (possibly missing) position attribute — the flat vertex list of the
    non-indexed geometry. -/
structure MeshGeom where
  id : ℕ
  posAttr : Option (List ℚ)
deriving DecidableEq, Repr

/-- A static body added to the world by `loadStage`. -/
inductive StaticBody where
  | plane (y : ℚ) (normal : Vec3)
  | trimeshBody (meshId : ℕ)
deriving DecidableEq, Repr

/-- Rotation about the X axis with given cosine and sine, applied to a
    vector. -/
def rotXVec (c s : ℚ) (v : Vec3) : Vec3 :=
  { x := v.x, y := c * v.y - s * v.z, z := s * v.y + c * v.z }

/-- The default normal of `CANNON.Plane` is the local +Z axis. -/
def planeLocalNormal : Vec3 := ⟨0, 0, 1⟩

/-- Source: `groundBody.quaternion.setFromEuler(-Math.PI / 2, 0, 0)` (main.js 166)
    is a rotation about X by -π/2, whose cosine is 0 and sine is -1 —
    both exact rationals; the world-space plane normal is that rotation
    applied to the local +Z normal. -/
def fallbackPlaneNormal : Vec3 := rotXVec 0 (-1) planeLocalNormal

/-- The fallback ground plane body (main.js 160-171): a static plane placed
    at `stageTopY`, rotated to be horizontal. -/
def fallbackPlane (stageTop : ℚ) : StaticBody := .plane stageTop fallbackPlaneNormal

/-- The static-body construction of `loadStage` (main.js 160-211), as the
    ordered sequence of `world.addBody` calls.

    * The fallback plane is added first (main.js 160-171), before the
      per-mesh loop.
    * Each mesh without a position attribute is skipped (main.js 182).
    * `buildOk m` abstracts whether `new CANNON.Trimesh(vertices, indices)`
      succeeds for mesh `m` (external cannon-es code that may throw on
      malformed geometry); on failure the mesh is logged and skipped
      (main.js 207-209).  The vertex expansion, sequential index generation
      and world-matrix transform (178-199) feed only this constructor. -/
def meshStaticBody (buildOk : MeshGeom → Bool) (m : MeshGeom) : Option StaticBody :=
  match m.posAttr with
  | none => none          -- `if (!posAttr) return` (main.js 182)
  | some _ => if buildOk m then some (.trimeshBody m.id) else none

def loadStageBodies (buildOk : MeshGeom → Bool) (stageTop : ℚ)
    (meshes : List MeshGeom) : List StaticBody :=
  fallbackPlane stageTop :: meshes.filterMap (meshStaticBody buildOk)

/- Spec-side definitions, for refinement comparison. -/

/-- Modelled from the spec: a die is "nearby" when its horizontal distance
    to the target is within the exclusion radius (squared form; see header
    note on `sqrt`). -/
def specNearby (target : Vec3) (r : ℚ) (d : DieObject) : Bool :=
  decide ((d.mesh.pos.x - target.x) * (d.mesh.pos.x - target.x) +
          (d.mesh.pos.z - target.z) * (d.mesh.pos.z - target.z) < r * r)

/-- Modelled from the spec: a live die's "top surface" is its Y position
    plus its half-height. -/
def specDieTop (d : DieObject) : ℚ := d.mesh.pos.y + d.halfHeight

/-- Modelled from the spec: "The floor for placement height is the greater
    of (stage top) and (highest nearby die top)." -/
def specPlacementFloor (stageTop : ℚ) (target : Vec3) (r : ℚ)
    (dice : List DieObject) : ℚ :=
  ((dice.filter (specNearby target r)).map specDieTop).foldl max stageTop

/- Concrete instances used by witnesses and counterexamples. -/

/-- A cubic die template of bounding size 1×1×1 (half-height 1/2). -/
def tmplCube : DiceTemplate := ⟨⟨1, 1, 1⟩⟩

/-- Stage loaded with top Y = 2, die template ready, no dice live. -/
def emptyState : SimState :=
  { diceObjects := [], worldBodies := [], sceneMeshes := [], stageTopY := 2,
    diceTemplate := some tmplCube, timers := [] }

/-- Stage loaded but the die template has not finished loading. -/
def noTemplateState : SimState := { emptyState with diceTemplate := none }

/-- A die resting with its centre at Y = 2.1 and half-height 1/2, so its top
    surface is at Y = 2.6 (the spec's second placement scenario). -/
def restingDie : DieObject :=
  { mesh := ⟨5, ⟨0, 21 / 10, 0⟩, identQuat⟩,
    body := ⟨6, ⟨0, 21 / 10, 0⟩, identQuat, ⟨0, 0, 0⟩, ⟨1 / 2, 1 / 2, 1 / 2⟩⟩,
    born := 0, halfHeight := 1 / 2 }

/-- Source: `emptyState` with `restingDie` live. -/
def oneDieState : SimState :=
  { emptyState with diceObjects := [restingDie], worldBodies := [6], sceneMeshes := [5] }

/-- A solver outcome for the six immediate sub-steps in which the new body,
    deflected past the side of a nearby resting die, ends at Y = 2.8. -/
def slidOff : Body → Body := fun b => { b with pos := { b.pos with y := 14 / 5 } }

/-- The six immediate sub-steps under gravity alone: six steps of 1/120 s
    drop a contact-free body by about 0.014 (here 7/500). -/
def fallSix : Body → Body := fun b => { b with pos := { b.pos with y := b.pos.y - 7 / 500 } }

/-- The die entry produced by `spawnDie (fun b => b) 0 0 1 ⟨1,1,1⟩ ⟨0,5,0⟩`
    on `emptyState`: requested Y = 5 is above every clamp, so positions are
    kept as requested. -/
def idleSpawnEntry : DieObject :=
  { mesh := ⟨0, ⟨0, 5, 0⟩, identQuat⟩,
    body := ⟨1, ⟨0, 5, 0⟩, identQuat, ⟨0, 0, 0⟩, ⟨1 / 2, 1 / 2, 1 / 2⟩⟩,
    born := 0, halfHeight := 1 / 2 }

/-- A stage mesh whose collision shape builds successfully. -/
def stageMeshA : MeshGeom := ⟨0, some [0, 0, 0, 0, 0, 1, 1, 0, 0]⟩

/-- A stage mesh whose `CANNON.Trimesh` construction throws. -/
def stageMeshBad : MeshGeom := ⟨1, some [0, 0, 0]⟩

/-- A shape-construction outcome: succeeds only for mesh id 0. -/
def idZeroOk : MeshGeom → Bool := fun m => m.id == 0

/- Helper lemmas. -/

theorem clearAllDice_diceTemplate (s : SimState) :
    (clearAllDice s).diceTemplate = s.diceTemplate := rfl

theorem clearAllDice_stageTopY (s : SimState) :
    (clearAllDice s).stageTopY = s.stageTopY := rfl

theorem clearAllDice_diceObjects (s : SimState) :
    (clearAllDice s).diceObjects = [] := rfl

theorem getLast?_append_singleton (l : List DieObject) (a : DieObject) :
    (l ++ [a]).getLast? = some a := by
  simp

theorem clampSpawnY_ge (minSafe : ℚ) (p : Vec3) (fl : ℚ) (hm : fl ≤ minSafe) :
    fl ≤ (clampSpawnY minSafe p).y := by
  unfold clampSpawnY
  split_ifs with hlt
  · exact hm
  · exact le_trans hm (le_of_not_lt hlt)


/- Claim theorems. -/

/-- Claim C5: for every spawn request issued before the die template has
    finished loading, `spawnDie` returns null and the whole module state —
    the `diceObjects` collection, the world's body set, the scene — is left
    unchanged. -/
theorem spawn_before_ready_null (phys : Body → Body) (now mid bid : ℕ)
    (msize position : Vec3) (quaternion : Quat) (velocity : Vec3) (s : SimState)
    (h : s.diceTemplate = none) :
    (spawnDie phys now mid bid msize position quaternion velocity s).result = none ∧
    (spawnDie phys now mid bid msize position quaternion velocity s).state = s := by
  simp [spawnDie, h]

/-- Witness for C5 at a concrete not-yet-loaded state. -/
theorem spawn_before_ready_null_witness :
    noTemplateState.diceTemplate = none ∧
    (spawnDie (fun b => b) 0 0 1 ⟨1, 1, 1⟩ ⟨0, 0, 0⟩ identQuat ⟨0, 0, 0⟩
        noTemplateState).result = none ∧
    (spawnDie (fun b => b) 0 0 1 ⟨1, 1, 1⟩ ⟨0, 0, 0⟩ identQuat ⟨0, 0, 0⟩
        noTemplateState).state = noTemplateState :=
  ⟨rfl, spawn_before_ready_null (fun b => b) 0 0 1 ⟨1, 1, 1⟩ ⟨0, 0, 0⟩ identQuat
      ⟨0, 0, 0⟩ noTemplateState rfl⟩

/-- Claim C4: for every spawn request issued after the die template is
    ready, the body's initial Y position (as set at main.js 286, before the
    immediate sub-steps) is at least the effective floor plus the die's
    half-height — the die is never instantiated embedded in the stage or in
    another live die. -/
theorem spawn_above_floor (phys : Body → Body) (now mid bid : ℕ)
    (msize position : Vec3) (quaternion : Quat) (velocity : Vec3)
    (s : SimState) (t : DiceTemplate) (h : s.diceTemplate = some t) :
    spawnFloorOf s msize position + msize.y / 2 ≤
      (spawnDie phys now mid bid msize position quaternion velocity s).preStepBodyPos.y := by
  have key : spawnFloorOf s msize position + msize.y / 2 ≤
      minSafeSpawnY (spawnFloorOf s msize position) (halfExtentsOf msize).y := by
    simp only [minSafeSpawnY, halfExtentsOf]
    linarith
  simp only [spawnDie, h]
  exact clampSpawnY_ge _ _ _ key

/-- Witness for C4 at a concrete spawn over the empty stage. -/
theorem spawn_above_floor_witness :
    emptyState.diceTemplate = some tmplCube ∧
    spawnFloorOf emptyState ⟨1, 1, 1⟩ ⟨0, 0, 0⟩ + (1 : ℚ) / 2 ≤
      (spawnDie (fun b => b) 0 0 1 ⟨1, 1, 1⟩ ⟨0, 0, 0⟩ identQuat ⟨0, 0, 0⟩
          emptyState).preStepBodyPos.y :=
  ⟨rfl, by
    have := spawn_above_floor (fun b => b) 0 0 1 ⟨1, 1, 1⟩ ⟨0, 0, 0⟩ identQuat
      ⟨0, 0, 0⟩ emptyState tmplCube rfl
    simpa using this⟩

/-- Claim C8: after the sync step of each of the N frame-loop iterations,
    every live instance's visual position and orientation equal its body's;
    and the copy is one-way — `syncAll` never writes the visual back into
    the body. -/
theorem frames_synced (phys : List Body → List Body) (s : SimState) (N : ℕ)
    (hN : 0 < N) :
    (∀ d ∈ (animateFrames phys N s).diceObjects,
        d.mesh.pos = d.body.pos ∧ d.mesh.quat = d.body.quat) ∧
    (∀ u : SimState, bodiesOf (syncAll u) = bodiesOf u) := by
  constructor
  · obtain ⟨m, rfl⟩ : ∃ m, N = m + 1 := ⟨N - 1, by omega⟩
    intro d hd
    simp only [animateFrames, animateFrame, syncAll, List.mem_map] at hd
    obtain ⟨e, _, rfl⟩ := hd
    simp [syncDie]
  · intro u
    simp [bodiesOf, syncAll, List.map_map, Function.comp, syncDie]

/-- Witness for C8 at one concrete frame. -/
theorem frames_synced_witness :
    (0 : ℕ) < 1 ∧ bodiesOf (syncAll oneDieState) = bodiesOf oneDieState :=
  ⟨by decide, (frames_synced (fun bs => bs) oneDieState 1 (by decide)).2 oneDieState⟩

theorem clampSpawnY_no (minSafe : ℚ) (p : Vec3) (hge : minSafe ≤ p.y) :
    clampSpawnY minSafe p = p := by
  unfold clampSpawnY
  rw [if_neg (not_lt.mpr hge)]

/-- Claim C1 (amended): for every roll-button spawn with the template ready
    (the handler clears all dice first, so no dice are nearby), the
    resulting die's initial position has X and Z equal to the aim target and
    Y equal to stage top + dieHalf + `max(1.5, 2 * dieHalf)`, where dieHalf
    is the template's stored half-height or 0.6 when that is falsy
    (main.js 380) — the handler's spawn margin is at least 1.5 and
    deliberately large ("Raise the spawn much higher", main.js 381), not the
    small 0.02 clearance of the placement clamp.  The formula floor +
    half-height + 0.02 is only a lower clamp, inactive on this path. -/
theorem roll_spawn_position (phys : Body → Body) (now mid bid : ℕ)
    (aimX aimZ r1 r2 : ℚ) (s : SimState) (t : DiceTemplate)
    (h : s.diceTemplate = some t) :
    (rollClick phys now mid bid aimX aimZ r1 r2 s).map (fun o => o.preStepBodyPos) =
      some ⟨aimX,
            s.stageTopY + rollDieHalf t + max (3 / 2) (rollDieHalf t * 2),
            aimZ⟩ := by
  simp only [rollClick, h, spawnDie, clearAllDice_diceTemplate, Option.map_some']
  have hfloor : spawnFloorOf (clearAllDice s) t.size
      ⟨aimX, (clearAllDice s).stageTopY + rollDieHalf t +
          spawnMarginOf (rollDieHalf t), aimZ⟩ = s.stageTopY := by
    simp [spawnFloorOf, highestNearbyTop, clearAllDice_diceObjects, clearAllDice_stageTopY]
  rw [hfloor]
  rw [clampSpawnY_no]
  · simp [clearAllDice_stageTopY, spawnMarginOf]
  · show minSafeSpawnY s.stageTopY (halfExtentsOf t.size).y ≤ _
    have key : t.size.y / 2 + 1 / 50 ≤ rollDieHalf t + max (3 / 2) (rollDieHalf t * 2) := by
      unfold rollDieHalf templateHalfHeight
      split_ifs with h0
      · rw [h0]
        have hmax : (3 : ℚ) / 2 ≤ max (3 / 2) (3 / 5 * 2) := le_max_left _ _
        linarith
      · have hmax : (3 : ℚ) / 2 ≤ max (3 / 2) (t.size.y / 2 * 2) := le_max_left _ _
        linarith
    simp only [minSafeSpawnY, halfExtentsOf, spawnMarginOf, clearAllDice_stageTopY]
    linarith

/-- Counterexample for C1 as stated: with stage top 2.0, a half-height of
    1/2 and target (0, _, 0), the resulting initial Y is 4 = 2 + 1/2 + 3/2,
    not 2 + 1/2 + 0.02 (floor + half-height + the small clearance margin
    used by the placement clamp at main.js 284). -/
theorem roll_small_margin_refuted :
    ¬ ((rollClick (fun b => b) 0 0 1 0 0 0 0 emptyState).map
          (fun o => o.preStepBodyPos.y) = some (2 + 1 / 2 + 1 / 50)) ∧
    (rollClick (fun b => b) 0 0 1 0 0 0 0 emptyState).map
        (fun o => o.preStepBodyPos.y) = some (2 + 1 / 2 + 3 / 2) := by
  have hv : (rollClick (fun b => b) 0 0 1 0 0 0 0 emptyState).map
      (fun o => o.preStepBodyPos.y) = some 4 := by
    simp only [rollClick, emptyState, tmplCube, clearAllDice, removeAllDice,
      rollDieHalf, templateHalfHeight, spawnMarginOf, spawnDie, spawnFloorOf,
      highestNearbyTop, horizRadiusOf, halfExtentsOf, minSafeSpawnY, clampSpawnY,
      identQuat, postStepMinSafeY, List.foldl_nil, List.reverse_nil, Option.map_some']
    norm_num
  rw [hv]
  constructor
  · norm_num
  · norm_num

/-- Witness for C1 (amended) at the concrete scenario state. -/
theorem roll_spawn_position_witness :
    emptyState.diceTemplate = some tmplCube ∧
    (rollClick (fun b => b) 0 0 1 0 0 0 0 emptyState).map (fun o => o.preStepBodyPos) =
      some ⟨0, emptyState.stageTopY + rollDieHalf tmplCube +
          max (3 / 2) (rollDieHalf tmplCube * 2), 0⟩ :=
  ⟨rfl, roll_spawn_position (fun b => b) 0 0 1 0 0 0 0 emptyState tmplCube rfl⟩

/-- Claim C2 (amended): after body creation `spawnDie` runs the immediate
    solver sub-steps and then re-clamps the body's Y upward whenever the
    solver left it below `stageTopY + max(halfExtents) + 0.05` — a threshold
    computed from the stage top alone — so the body never ends the spawn
    call below that stage-based threshold.  (It is not the floor computed in
    step 3 from nearby die tops; see the counterexample.) -/
theorem spawn_poststep_stage_clamp (phys : Body → Body) (now mid bid : ℕ)
    (msize position : Vec3) (quaternion : Quat) (velocity : Vec3)
    (s : SimState) (t : DiceTemplate) (h : s.diceTemplate = some t) :
    ∀ entry : DieObject,
      (spawnDie phys now mid bid msize position quaternion velocity s).state.diceObjects.getLast?
          = some entry →
      postStepMinSafeY s.stageTopY (halfExtentsOf msize) ≤ entry.body.pos.y := by
  intro entry hentry
  simp only [spawnDie, h] at hentry
  rw [getLast?_append_singleton] at hentry
  obtain rfl := Option.some.inj hentry
  dsimp only
  split
  · exact le_refl _
  · rename_i hge
    exact le_of_not_lt hge

/-- Counterexample for C2 as stated: with one die resting nearby (top
    surface 2.6, within the exclusion radius of the target), the step-3
    floor plus half-height is 3.1, but a solver outcome leaving the new
    body at Y = 2.8 — below 3.1 yet above the code's stage-based threshold
    2 + 1/2 + 0.05 = 2.55 — is not re-clamped: the body ends the spawn call
    below the claimed safe floor. -/
theorem poststep_floor_refuted :
    ((spawnDie slidOff 0 7 8 ⟨1, 1, 1⟩ ⟨0, 5, 0⟩ identQuat ⟨0, 0, 0⟩
          oneDieState).state.diceObjects.getLast?).map (fun d => d.body.pos.y)
        = some (14 / 5) ∧
    spawnFloorOf oneDieState ⟨1, 1, 1⟩ ⟨0, 5, 0⟩ + (1 : ℚ) / 2 = 31 / 10 ∧
    (14 / 5 : ℚ) < 31 / 10 := by
  refine ⟨?_, ?_, by norm_num⟩
  · simp only [spawnDie, oneDieState, emptyState, restingDie, slidOff, spawnFloorOf,
      highestNearbyTop, scanStep, dieTop, otherHalfOf, horizRadiusOf, halfExtentsOf,
      minSafeSpawnY, clampSpawnY, identQuat, postStepMinSafeY, List.foldl_cons,
      List.foldl_nil, getLast?_append_singleton, Option.map_some']
    norm_num
  · simp only [spawnFloorOf, oneDieState, emptyState, restingDie, highestNearbyTop,
      scanStep, dieTop, otherHalfOf, horizRadiusOf, List.foldl_cons, List.foldl_nil]
    norm_num

/-- Witness for C2 (amended) at a concrete spawn. -/
theorem spawn_poststep_stage_clamp_witness :
    emptyState.diceTemplate = some tmplCube ∧
    (spawnDie (fun b => b) 0 0 1 ⟨1, 1, 1⟩ ⟨0, 5, 0⟩ identQuat ⟨0, 0, 0⟩
        emptyState).state.diceObjects.getLast? = some idleSpawnEntry ∧
    postStepMinSafeY emptyState.stageTopY (halfExtentsOf ⟨1, 1, 1⟩) ≤
      idleSpawnEntry.body.pos.y := by
  have hv : (spawnDie (fun b => b) 0 0 1 ⟨1, 1, 1⟩ ⟨0, 5, 0⟩ identQuat ⟨0, 0, 0⟩
      emptyState).state.diceObjects.getLast? = some idleSpawnEntry := by
    simp only [spawnDie, emptyState, tmplCube, spawnFloorOf, highestNearbyTop,
      horizRadiusOf, halfExtentsOf, minSafeSpawnY, clampSpawnY, identQuat,
      postStepMinSafeY, idleSpawnEntry, List.foldl_nil, List.nil_append,
      List.getLast?_singleton]
    norm_num
  exact ⟨rfl, hv,
    spawn_poststep_stage_clamp (fun b => b) 0 0 1 ⟨1, 1, 1⟩ ⟨0, 5, 0⟩ identQuat
      ⟨0, 0, 0⟩ emptyState tmplCube rfl idleSpawnEntry hv⟩

theorem scanStep_eq_max (target : Vec3) (r : ℚ) (acc : ℚ) (d : DieObject)
    (hh : d.halfHeight ≠ 0) :
    scanStep target r acc d =
      if specNearby target r d = true then max acc (specDieTop d) else acc := by
  have htop : dieTop d = specDieTop d := by
    simp [dieTop, specDieTop, otherHalfOf, hh]
  simp only [scanStep, specNearby, htop, decide_eq_true_eq]
  by_cases hnear : (d.mesh.pos.x - target.x) * (d.mesh.pos.x - target.x) +
      (d.mesh.pos.z - target.z) * (d.mesh.pos.z - target.z) < r * r
  · simp only [hnear, true_and, if_true]
    by_cases hgt : specDieTop d > acc
    · rw [if_pos hgt, max_eq_right hgt.le]
    · rw [if_neg hgt, max_eq_left (not_lt.mp hgt)]
  · simp [hnear]

theorem highestNearbyTop_spec_aux (target : Vec3) (r : ℚ) :
    ∀ (dice : List DieObject) (acc : ℚ), (∀ d ∈ dice, d.halfHeight ≠ 0) →
      dice.foldl (scanStep target r) acc =
        ((dice.filter (specNearby target r)).map specDieTop).foldl max acc := by
  intro dice
  induction dice with
  | nil => intro acc _; rfl
  | cons d rest ih =>
    intro acc hh
    have hd := hh d (List.mem_cons_self d rest)
    have hrest : ∀ e ∈ rest, e.halfHeight ≠ 0 := fun e he => hh e (List.mem_cons_of_mem d he)
    simp only [List.foldl_cons]
    rw [scanStep_eq_max target r acc d hd]
    by_cases hnear : specNearby target r d = true
    · rw [if_pos hnear, ih _ hrest]
      simp [List.filter_cons, hnear]
    · rw [if_neg hnear, ih _ hrest]
      simp [List.filter_cons, hnear]

/-- Claim C3: the placement floor computed by `spawnDie` is the greater of
    the stage top and the highest top surface (Y position + half-height)
    among live dice within the exclusion radius of the target (a refinement
    of the scan at main.js 268-282 against the spec's description); and in
    the concrete scenario — one die resting with top surface 2.6 within the
    exclusion radius, stage top 2.0 — the floor is 2.6, not the raw stage
    top.  The hypothesis excludes dice with a falsy (zero) stored
    half-height, for which the code substitutes the constant 0.5. -/
theorem placement_floor_spec (stageTop : ℚ) (target : Vec3) (r : ℚ)
    (dice : List DieObject) (hh : ∀ d ∈ dice, d.halfHeight ≠ 0) :
    highestNearbyTop stageTop target r dice = specPlacementFloor stageTop target r dice ∧
    highestNearbyTop 2 ⟨0, 0, 0⟩ (9 / 10) [restingDie] = 13 / 5 := by
  constructor
  · exact highestNearbyTop_spec_aux target r dice stageTop hh
  · simp only [highestNearbyTop, scanStep, dieTop, otherHalfOf, restingDie,
      List.foldl_cons, List.foldl_nil]
    norm_num

/-- Witness for C3 at the spec's scenario. -/
theorem placement_floor_spec_witness :
    restingDie.halfHeight ≠ 0 ∧
    highestNearbyTop 2 ⟨0, 0, 0⟩ (9 / 10) [restingDie] =
      specPlacementFloor 2 ⟨0, 0, 0⟩ (9 / 10) [restingDie] := by
  have hh : ∀ d ∈ [restingDie], d.halfHeight ≠ 0 := by
    intro d hd
    simp only [List.mem_singleton] at hd
    subst hd
    simp [restingDie]
  exact ⟨hh restingDie (List.mem_singleton_self restingDie),
    (placement_floor_spec 2 ⟨0, 0, 0⟩ (9 / 10) [restingDie] hh).1⟩

theorem removeAllDice_fst (ds : List DieObject) :
    ∀ (wb sc : List ℕ),
      (removeAllDice ds wb sc).1 = ds.foldl (fun acc d => acc.erase d.body.id) wb := by
  induction ds with
  | nil => intro wb sc; rfl
  | cons d rest ih => intro wb sc; simp only [removeAllDice, List.foldl_cons, ih]

theorem removeAllDice_snd (ds : List DieObject) :
    ∀ (wb sc : List ℕ),
      (removeAllDice ds wb sc).2 = ds.foldl (fun acc d => acc.erase d.mesh.id) sc := by
  induction ds with
  | nil => intro wb sc; rfl
  | cons d rest ih => intro wb sc; simp only [removeAllDice, List.foldl_cons, ih]

theorem foldl_erase_preserve (f : DieObject → ℕ) (a : ℕ) (ds : List DieObject) :
    ∀ l : List ℕ, a ∉ l → a ∉ ds.foldl (fun acc d => acc.erase (f d)) l := by
  induction ds with
  | nil => intro l h; exact h
  | cons d rest ih =>
    intro l h
    simp only [List.foldl_cons]
    exact ih _ (fun hmem => h (List.erase_subset _ _ hmem))

theorem foldl_erase_not_mem (f : DieObject → ℕ) (ds : List DieObject) :
    ∀ (l : List ℕ) (a : ℕ), l.count a ≤ 1 → (∃ d ∈ ds, f d = a) →
      a ∉ ds.foldl (fun acc d => acc.erase (f d)) l := by
  induction ds with
  | nil =>
    rintro l a _ ⟨d, hd, _⟩
    exact absurd hd (List.not_mem_nil d)
  | cons d rest ih =>
    rintro l a hcount ⟨e, he, hfe⟩
    simp only [List.foldl_cons]
    by_cases hda : f d = a
    · apply foldl_erase_preserve
      rw [hda]
      intro hmem
      have h1 : (l.erase a).count a = l.count a - 1 := List.count_erase_self a l
      have h2 : 0 < (l.erase a).count a := List.count_pos_iff.mpr hmem
      omega
    · have he' : e ∈ rest := by
        rcases List.mem_cons.mp he with h | h
        · exact absurd (h ▸ hfe) hda
        · exact h
      apply ih
      · rw [List.count_erase_of_ne (Ne.symm hda)]
        exact hcount
      · exact ⟨e, he', hfe⟩

/-- Claim C6: after `clearAllDice` the live-instance collection is empty,
    every previously live body is gone from the world's body set and every
    previously live mesh is gone from the scene; and a second immediate call
    is a no-op.  The count hypotheses are the world/scene invariant that
    each live body and mesh is registered at most once. -/
theorem clearAll_empties (s : SimState)
    (hb : ∀ d ∈ s.diceObjects, s.worldBodies.count d.body.id ≤ 1)
    (hm : ∀ d ∈ s.diceObjects, s.sceneMeshes.count d.mesh.id ≤ 1) :
    (clearAllDice s).diceObjects = [] ∧
    (∀ d ∈ s.diceObjects,
        d.body.id ∉ (clearAllDice s).worldBodies ∧
        d.mesh.id ∉ (clearAllDice s).sceneMeshes) ∧
    clearAllDice (clearAllDice s) = clearAllDice s := by
  refine ⟨rfl, ?_, ?_⟩
  · intro d hd
    constructor
    · show d.body.id ∉ (removeAllDice s.diceObjects.reverse s.worldBodies s.sceneMeshes).1
      rw [removeAllDice_fst]
      exact foldl_erase_not_mem (fun e => e.body.id) _ _ _ (hb d hd)
        ⟨d, List.mem_reverse.mpr hd, rfl⟩
    · show d.mesh.id ∉ (removeAllDice s.diceObjects.reverse s.worldBodies s.sceneMeshes).2
      rw [removeAllDice_snd]
      exact foldl_erase_not_mem (fun e => e.mesh.id) _ _ _ (hm d hd)
        ⟨d, List.mem_reverse.mpr hd, rfl⟩
  · simp [clearAllDice, removeAllDice]

/-- Witness for C6 at a concrete one-die state. -/
theorem clearAll_empties_witness :
    (clearAllDice oneDieState).diceObjects = [] ∧
    restingDie.body.id ∉ (clearAllDice oneDieState).worldBodies ∧
    restingDie.mesh.id ∉ (clearAllDice oneDieState).sceneMeshes ∧
    clearAllDice (clearAllDice oneDieState) = clearAllDice oneDieState := by
  have hb : ∀ d ∈ oneDieState.diceObjects, oneDieState.worldBodies.count d.body.id ≤ 1 := by
    intro d hd
    simp only [oneDieState, emptyState, List.mem_singleton] at hd
    subst hd
    simp [oneDieState, emptyState, restingDie]
  have hm : ∀ d ∈ oneDieState.diceObjects, oneDieState.sceneMeshes.count d.mesh.id ≤ 1 := by
    intro d hd
    simp only [oneDieState, emptyState, List.mem_singleton] at hd
    subst hd
    simp [oneDieState, emptyState, restingDie]
  have hmem : restingDie ∈ oneDieState.diceObjects := List.mem_singleton_self restingDie
  obtain ⟨h1, h2, h3⟩ := clearAll_empties oneDieState hb hm
  exact ⟨h1, (h2 restingDie hmem).1, (h2 restingDie hmem).2, h3⟩

theorem spawnDie_state_eq (phys : Body → Body) (now mid bid : ℕ)
    (msize position : Vec3) (quaternion : Quat) (velocity : Vec3)
    (s : SimState) (t : DiceTemplate) (h : s.diceTemplate = some t) :
    ∃ entry : DieObject, entry.body.id = bid ∧ entry.mesh.id = mid ∧ entry.born = now ∧
      (spawnDie phys now mid bid msize position quaternion velocity s).state =
        { s with diceObjects := s.diceObjects ++ [entry],
                 worldBodies := s.worldBodies ++ [bid],
                 sceneMeshes := s.sceneMeshes ++ [mid],
                 timers := (bid, now + 90000) :: s.timers } := by
  simp only [spawnDie, h]
  refine ⟨_, ?_, ?_, ?_, rfl⟩
  · dsimp only
    split <;> rfl
  · dsimp only
    split <;> rfl
  · rfl

theorem find?_append_of_all_false (p : DieObject → Bool) (l1 l2 : List DieObject)
    (h : ∀ x ∈ l1, p x = false) :
    (l1 ++ l2).find? p = l2.find? p := by
  induction l1 with
  | nil => rfl
  | cons a l ih =>
    have ha := h a (List.mem_cons_self a l)
    simp only [List.cons_append, List.find?_cons, ha, cond_false]
    exact ih (fun x hx => h x (List.mem_cons_of_mem a hx))

theorem eraseP_append_of_all_false (p : DieObject → Bool) (l1 l2 : List DieObject)
    (h : ∀ x ∈ l1, p x = false) :
    (l1 ++ l2).eraseP p = l1 ++ l2.eraseP p := by
  induction l1 with
  | nil => rfl
  | cons a l ih =>
    have ha := h a (List.mem_cons_self a l)
    simp only [List.cons_append, List.eraseP_cons, ha, cond_false]
    rw [ih (fun x hx => h x (List.mem_cons_of_mem a hx))]

theorem timeoutRemove_no_match (bid : ℕ) (s : SimState)
    (hall : ∀ x ∈ s.diceObjects, x.body.id ≠ bid) :
    timeoutRemove bid s = s := by
  have hfind : s.diceObjects.find? (fun d => d.body.id == bid) = none :=
    List.find?_eq_none.mpr (by intro x hx; simpa using hall x hx)
  unfold timeoutRemove
  rw [hfind]

theorem timeoutRemove_of_appended (s : SimState) (entry : DieObject) (bid mid : ℕ)
    (hbid : entry.body.id = bid) (hmid : entry.mesh.id = mid)
    (hall : ∀ x ∈ s.diceObjects, x.body.id ≠ bid)
    (hwb : bid ∉ s.worldBodies) (hsc : mid ∉ s.sceneMeshes) (tm : List (ℕ × ℕ)) :
    timeoutRemove bid
        { s with diceObjects := s.diceObjects ++ [entry],
                 worldBodies := s.worldBodies ++ [bid],
                 sceneMeshes := s.sceneMeshes ++ [mid], timers := tm } =
      { s with timers := tm } := by
  have hall' : ∀ x ∈ s.diceObjects, (x.body.id == bid) = false := by
    intro x hx
    simpa using hall x hx
  have hpe : (entry.body.id == bid) = true := beq_iff_eq.mpr hbid
  have hfind : (s.diceObjects ++ [entry]).find? (fun d => d.body.id == bid) = some entry := by
    rw [find?_append_of_all_false _ _ _ hall']
    simp [List.find?_cons, hpe]
  have herase : (s.diceObjects ++ [entry]).eraseP (fun e => e.body.id == bid) =
      s.diceObjects := by
    rw [eraseP_append_of_all_false _ _ _ hall']
    simp [List.eraseP_cons, hpe]
  unfold timeoutRemove
  rw [hfind]
  simp only [herase, hmid]
  rw [List.erase_append_right _ hwb, List.erase_append_right _ hsc]
  simp

/-- Claim C7: a spawned die's removal is scheduled exactly 90 000 ms after
    spawn and, by timer semantics, cannot fire before 90 s have elapsed;
    when it fires it removes the body and visual together exactly once (a
    second firing is a no-op); and when an explicit clear already removed
    the die, the timer finds nothing and changes nothing — no double
    removal, no leak. -/
theorem spawn_timeout_lifecycle (phys : Body → Body) (now mid bid : ℕ)
    (msize position : Vec3) (quaternion : Quat) (velocity : Vec3)
    (s : SimState) (t : DiceTemplate)
    (h : s.diceTemplate = some t)
    (hfresh : ∀ d ∈ s.diceObjects, d.body.id ≠ bid)
    (hwb : bid ∉ s.worldBodies)
    (hsc : mid ∉ s.sceneMeshes) :
    (spawnDie phys now mid bid msize position quaternion velocity s).state.timers.head?
        = some (bid, now + 90000) ∧
    (∀ fireAt : ℕ, timerFireOk (now + 90000) fireAt → 90000 ≤ fireAt - now) ∧
    ((∀ d ∈ (timeoutRemove bid
          (spawnDie phys now mid bid msize position quaternion velocity s).state).diceObjects,
        d.body.id ≠ bid) ∧
      bid ∉ (timeoutRemove bid
          (spawnDie phys now mid bid msize position quaternion velocity s).state).worldBodies ∧
      mid ∉ (timeoutRemove bid
          (spawnDie phys now mid bid msize position quaternion velocity s).state).sceneMeshes ∧
      timeoutRemove bid (timeoutRemove bid
          (spawnDie phys now mid bid msize position quaternion velocity s).state) =
        timeoutRemove bid
          (spawnDie phys now mid bid msize position quaternion velocity s).state) ∧
    timeoutRemove bid
        (clearAllDice (spawnDie phys now mid bid msize position quaternion velocity s).state) =
      clearAllDice (spawnDie phys now mid bid msize position quaternion velocity s).state := by
  obtain ⟨entry, hbid, hmid, hborn, hstate⟩ :=
    spawnDie_state_eq phys now mid bid msize position quaternion velocity s t h
  rw [hstate]
  have hrem := timeoutRemove_of_appended s entry bid mid hbid hmid hfresh hwb hsc
    ((bid, now + 90000) :: s.timers)
  rw [hrem]
  refine ⟨rfl, ?_, ⟨?_, hwb, hsc, ?_⟩, ?_⟩
  · intro fireAt hfire
    unfold timerFireOk at hfire
    omega
  · intro d hd
    exact hfresh d hd
  · exact timeoutRemove_no_match bid _ hfresh
  · refine timeoutRemove_no_match bid _ ?_
    intro x hx
    rw [clearAllDice_diceObjects] at hx
    exact absurd hx (List.not_mem_nil x)

/-- Witness for C7 at a concrete spawn over the empty state. -/
theorem spawn_timeout_lifecycle_witness :
    emptyState.diceTemplate = some tmplCube ∧
    (1 : ℕ) ∉ emptyState.worldBodies ∧
    (0 : ℕ) ∉ emptyState.sceneMeshes ∧
    (spawnDie (fun b => b) 0 0 1 ⟨1, 1, 1⟩ ⟨0, 5, 0⟩ identQuat ⟨0, 0, 0⟩
        emptyState).state.timers.head? = some (1, 0 + 90000) := by
  have h1 : ∀ d ∈ emptyState.diceObjects, d.body.id ≠ 1 := by
    intro d hd
    exact absurd hd (List.not_mem_nil d)
  have h2 : (1 : ℕ) ∉ emptyState.worldBodies := List.not_mem_nil 1
  have h3 : (0 : ℕ) ∉ emptyState.sceneMeshes := List.not_mem_nil 0
  exact ⟨rfl, h2, h3,
    (spawn_timeout_lifecycle (fun b => b) 0 0 1 ⟨1, 1, 1⟩ ⟨0, 5, 0⟩ identQuat ⟨0, 0, 0⟩
      emptyState tmplCube rfl h1 h2 h3).1⟩

/-- Claim C9 (amended): during stage construction a collision-shape failure
    for one mesh skips only that mesh — the remaining meshes' static bodies
    are still built — and one unconditional static infinite horizontal plane
    body with its normal pointing up is added to the world at the measured
    stage-top height; but it is added before (not after) the per-mesh shapes
    are attempted: it is the first body added. -/
theorem stage_build_skips_failures (buildOk : MeshGeom → Bool) (stageTop : ℚ)
    (pre post : List MeshGeom) (bad : MeshGeom) (hbad : buildOk bad = false) :
    loadStageBodies buildOk stageTop (pre ++ bad :: post) =
      loadStageBodies buildOk stageTop (pre ++ post) ∧
    fallbackPlane stageTop ∈ loadStageBodies buildOk stageTop (pre ++ bad :: post) ∧
    (loadStageBodies buildOk stageTop (pre ++ bad :: post)).head? =
      some (fallbackPlane stageTop) ∧
    fallbackPlaneNormal = ⟨0, 1, 0⟩ := by
  have hbadnone : meshStaticBody buildOk bad = none := by
    unfold meshStaticBody
    cases hpa : bad.posAttr with
    | none => rfl
    | some v => simp [hbad]
  refine ⟨?_, ?_, rfl, ?_⟩
  · unfold loadStageBodies
    rw [List.filterMap_append, List.filterMap_append]
    simp [List.filterMap_cons, hbadnone]
  · unfold loadStageBodies
    exact List.mem_cons_self _ _
  · simp only [fallbackPlaneNormal, rotXVec, planeLocalNormal, Vec3.mk.injEq]
    norm_num

/-- Counterexample for C9 as stated: with one successfully built stage mesh,
    the `world.addBody` order is [fallback plane, mesh body] — the plane is
    added before the per-mesh shapes are attempted (main.js 160-171 precede
    176-210), not after them. -/
theorem plane_added_after_refuted :
    loadStageBodies (fun _ => true) 2 [stageMeshA] =
      [fallbackPlane 2, StaticBody.trimeshBody 0] ∧
    loadStageBodies (fun _ => true) 2 [stageMeshA] ≠
      [StaticBody.trimeshBody 0, fallbackPlane 2] := by
  constructor
  · simp [loadStageBodies, meshStaticBody, stageMeshA]
  · simp [loadStageBodies, meshStaticBody, stageMeshA, fallbackPlane]

/-- Witness for C9 (amended): a concrete build in which the second mesh's
    shape construction fails and only that mesh is skipped. -/
theorem stage_build_skips_failures_witness :
    idZeroOk stageMeshBad = false ∧
    loadStageBodies idZeroOk 2 ([stageMeshA] ++ stageMeshBad :: []) =
      loadStageBodies idZeroOk 2 ([stageMeshA] ++ []) := by
  have hbad : idZeroOk stageMeshBad = false := by decide
  exact ⟨hbad, (stage_build_skips_failures idZeroOk 2 [stageMeshA] [] stageMeshBad hbad).1⟩

/-- Claim C10 (amended): when the requested Y is below the computed safe
    minimum, `spawnDie` overwrites the caller's position vector's Y in place
    with the clamped value (visible to the caller after the call); the
    cloned visual keeps the original pre-clamp Y through the immediate
    sub-steps, unless the post-substep corrective check fires, in which case
    the mesh's Y is overwritten with the stage-based threshold inside the
    same `spawnDie` call, before any sync. -/
theorem spawn_mutates_arg_position (phys : Body → Body) (now mid bid : ℕ)
    (msize position : Vec3) (quaternion : Quat) (velocity : Vec3)
    (s : SimState) (t : DiceTemplate)
    (h : s.diceTemplate = some t)
    (hy : position.y <
      minSafeSpawnY (spawnFloorOf s msize position) (halfExtentsOf msize).y) :
    (spawnDie phys now mid bid msize position quaternion velocity s).argPos =
      { position with
        y := minSafeSpawnY (spawnFloorOf s msize position) (halfExtentsOf msize).y } ∧
    ∀ entry : DieObject,
      (spawnDie phys now mid bid msize position quaternion velocity s).state.diceObjects.getLast?
          = some entry →
      entry.mesh.pos.y =
        if (phys { id := bid,
                   pos := { position with
                            y := minSafeSpawnY (spawnFloorOf s msize position)
                                   (halfExtentsOf msize).y },
                   quat := quaternion, vel := velocity,
                   halfExtents := halfExtentsOf msize }).pos.y <
            postStepMinSafeY s.stageTopY (halfExtentsOf msize)
        then postStepMinSafeY s.stageTopY (halfExtentsOf msize)
        else position.y := by
  have hclamp : clampSpawnY
      (minSafeSpawnY (spawnFloorOf s msize position) (halfExtentsOf msize).y) position =
      { position with
        y := minSafeSpawnY (spawnFloorOf s msize position) (halfExtentsOf msize).y } := by
    unfold clampSpawnY
    rw [if_pos hy]
  constructor
  · simp only [spawnDie, h]
    exact hclamp
  · intro entry hE
    simp only [spawnDie, h] at hE
    rw [getLast?_append_singleton] at hE
    obtain rfl := Option.some.inj hE
    dsimp only
    rw [hclamp]
    split <;> rfl

/-- Counterexample for C10 as stated: spawning at requested Y = 1 over the
    empty stage (safe minimum 2.52) with the six sub-steps dropping the
    contact-free body by 0.014 under gravity leaves the body at 2.506,
    below the corrective threshold 2.55 — so `spawnDie` itself overwrites
    the mesh's Y with 2.55 before any sync: the cloned visual does not keep
    the original pre-clamp Y (1) until the next sync. -/
theorem stale_mesh_refuted :
    (spawnDie fallSix 0 3 4 ⟨1, 1, 1⟩ ⟨0, 1, 0⟩ identQuat ⟨0, 0, 0⟩ emptyState).argPos
        = ⟨0, 63 / 25, 0⟩ ∧
    ((spawnDie fallSix 0 3 4 ⟨1, 1, 1⟩ ⟨0, 1, 0⟩ identQuat ⟨0, 0, 0⟩
        emptyState).state.diceObjects.getLast?).map (fun d => d.mesh.pos.y)
        = some (51 / 20) ∧
    (51 / 20 : ℚ) ≠ 1 := by
  refine ⟨?_, ?_, by norm_num⟩
  · simp only [spawnDie, emptyState, tmplCube, spawnFloorOf, highestNearbyTop,
      horizRadiusOf, halfExtentsOf, minSafeSpawnY, clampSpawnY, identQuat, fallSix,
      List.foldl_nil]
    norm_num
  · simp only [spawnDie, emptyState, tmplCube, spawnFloorOf, highestNearbyTop,
      horizRadiusOf, halfExtentsOf, minSafeSpawnY, clampSpawnY, identQuat, fallSix,
      postStepMinSafeY, List.foldl_nil, List.nil_append, List.getLast?_singleton,
      Option.map_some']
    norm_num

/-- Witness for C10 (amended) at a concrete below-minimum spawn. -/
theorem spawn_mutates_arg_position_witness :
    emptyState.diceTemplate = some tmplCube ∧
    (⟨0, 1, 0⟩ : Vec3).y <
      minSafeSpawnY (spawnFloorOf emptyState ⟨1, 1, 1⟩ ⟨0, 1, 0⟩)
        (halfExtentsOf ⟨1, 1, 1⟩).y ∧
    (spawnDie fallSix 1 5 6 ⟨1, 1, 1⟩ ⟨0, 1, 0⟩ identQuat ⟨0, 0, 0⟩ emptyState).argPos =
      { (⟨0, 1, 0⟩ : Vec3) with
        y := minSafeSpawnY (spawnFloorOf emptyState ⟨1, 1, 1⟩ ⟨0, 1, 0⟩)
          (halfExtentsOf ⟨1, 1, 1⟩).y } := by
  have hy : (⟨0, 1, 0⟩ : Vec3).y <
      minSafeSpawnY (spawnFloorOf emptyState ⟨1, 1, 1⟩ ⟨0, 1, 0⟩)
        (halfExtentsOf ⟨1, 1, 1⟩).y := by
    simp only [spawnFloorOf, emptyState, highestNearbyTop, halfExtentsOf, minSafeSpawnY,
      List.foldl_nil]
    norm_num
  exact ⟨rfl, hy,
    (spawn_mutates_arg_position fallSix 1 5 6 ⟨1, 1, 1⟩ ⟨0, 1, 0⟩ identQuat ⟨0, 0, 0⟩
      emptyState tmplCube rfl hy).1⟩
